import Mathlib

/-!
# Nutrifex persistence-layer verification

Shallow embedding of the Nutrifex domain/persistence core:
value objects (`Macronutrients`, `Quantity`, `ExpirationDate`),
entities (`Food`, `PantryItem`), the specification engine
(`CompositeSpecification`, `PantryItemSpecifications`), the mappers
(`FoodMapper`, `PantryItemMapper`), the repositories' query paths and
the `UnitOfWork` state machine.

Modelling conventions:
* JavaScript `number` values carrying nutritional amounts are modelled as
  exact rationals (`Rat`); millisecond timestamps are modelled as `Int`.
* A `Date` and its ISO-8601 serialization are in an order-preserving
  bijection, so persisted date strings are modelled by the instant (`Int`,
  epoch milliseconds) they denote; SQLite's lexicographic comparison of
  such strings coincides with comparison of the instants.
* TypeScript methods that `throw` are modelled in `Except String`, carrying
  the thrown `Error` message verbatim.
* Mutation of `this.inTransaction` together with possible throwing is
  modelled as state passing: a method of the unit of work maps a state to
  the successor state paired with `Except String` of its result.
-/

namespace Nutrifex

/-- Decidable equality of `Except` outcomes. -/
instance {ε α : Type} [DecidableEq ε] [DecidableEq α] : DecidableEq (Except ε α) := fun a b =>
  match a, b with
  | .ok x, .ok y => if h : x = y then .isTrue (by rw [h]) else .isFalse (by simp [h])
  | .error e, .error f => if h : e = f then .isTrue (by rw [h]) else .isFalse (by simp [h])
  | .ok _, .error _ => .isFalse (by simp)
  | .error _, .ok _ => .isFalse (by simp)

/-- The JS emptiness test `!s || s.trim().length === 0`: the string has no
non-whitespace character (`""` is falsy, so both disjuncts coincide). -/
def strBlank (s : String) : Bool := s.data.all Char.isWhitespace

/-- `MeasurementUnit` enum (src/unnamed/part_019). -/
inductive MeasurementUnit where
  | GRAM | KILOGRAM | MILLILITER | LITER | PIECE | SERVING
deriving DecidableEq, Repr

/-- String value of a `MeasurementUnit` enum member. -/
def MeasurementUnit.toStr : MeasurementUnit → String
  | .GRAM => "GRAM"
  | .KILOGRAM => "KILOGRAM"
  | .MILLILITER => "MILLILITER"
  | .LITER => "LITER"
  | .PIECE => "PIECE"
  | .SERVING => "SERVING"

/-- `QuantityType` enum (src/unnamed/part_021). -/
inductive QuantityType where
  | BY_WEIGHT | BY_VOLUME | BY_UNIT
deriving DecidableEq, Repr

/-- String value of a `QuantityType` enum member. -/
def QuantityType.toStr : QuantityType → String
  | .BY_WEIGHT => "BY_WEIGHT"
  | .BY_VOLUME => "BY_VOLUME"
  | .BY_UNIT => "BY_UNIT"

/-- `FoodState` enum (src/unnamed/part_020). -/
inductive FoodState where
  | SOLID | LIQUID | POWDER | GEL | SEMI_SOLID
deriving DecidableEq, Repr

/-- `FoodCategory` enum (src/src/domain/enums/FoodCategory.ts). -/
inductive FoodCategory where
  | FRUIT | VEGETABLE | MEAT | FISH | DAIRY | GRAIN | LEGUME | NUT
  | BEVERAGE | CONDIMENT | SNACK | OTHER
deriving DecidableEq, Repr

/-- `ExpirationType` enum (src/src/domain/enums/ExpirationType.ts). -/
inductive ExpirationType where
  | BEST_BEFORE | USE_BY
deriving DecidableEq, Repr

/-- A bound parameter value (`unknown` in `Record<string, unknown>`). -/
inductive Value where
  | str (s : String)
  | num (q : Rat)
  | instant (t : Int)
deriving DecidableEq, Repr

/-! ## Macronutrients (src/src/domain/value-objects/Macronutrients.ts) -/

/-- Observable fields of `Macronutrients` (also its `Props`/`toObject` shape). -/
structure Macronutrients where
  calories : Rat
  protein : Rat
  carbohydrates : Rat
  fat : Rat
deriving DecidableEq, Repr

namespace Macronutrients

/-- `Macronutrients.create`: constructor validation (all components ≥ 0). -/
def create (p : Macronutrients) : Except String Macronutrients :=
  if p.calories < 0 then .error "Calories cannot be negative"
  else if p.protein < 0 then .error "Protein cannot be negative"
  else if p.carbohydrates < 0 then .error "Carbohydrates cannot be negative"
  else if p.fat < 0 then .error "Fat cannot be negative"
  else .ok p

/-- JS `Math.round` (half-up toward +infinity), exact on rationals. -/
def jsRound (x : Rat) : Int := Int.floor (x + 1/2)

/-- `Math.round(v * ratio * 10) / 10`: scale and round to one decimal. -/
def scaleRound (v ratio : Rat) : Rat := (jsRound (v * ratio * 10) : Rat) / 10

/-- `Macronutrients.calculateForQuantity`. -/
def calculateForQuantity (m : Macronutrients) (ratio : Rat) :
    Except String Macronutrients :=
  if ratio < 0 then .error "Ratio cannot be negative"
  else .ok {
    calories := scaleRound m.calories ratio
    protein := scaleRound m.protein ratio
    carbohydrates := scaleRound m.carbohydrates ratio
    fat := scaleRound m.fat ratio }

/-- `Macronutrients.add`. -/
def add (m other : Macronutrients) : Macronutrients :=
  { calories := m.calories + other.calories
    protein := m.protein + other.protein
    carbohydrates := m.carbohydrates + other.carbohydrates
    fat := m.fat + other.fat }

/-- The invariant `validate()` establishes. -/
def Valid (m : Macronutrients) : Prop :=
  0 ≤ m.calories ∧ 0 ≤ m.protein ∧ 0 ≤ m.carbohydrates ∧ 0 ≤ m.fat

instance : DecidablePred Valid := fun m => by unfold Valid; infer_instance

end Macronutrients

/-! ## Quantity (src/unnamed/part_018) -/

/-- Observable fields of `Quantity` (also its `Props`/`toObject` shape). -/
structure Quantity where
  amount : Rat
  unit : MeasurementUnit
  type : QuantityType
deriving DecidableEq, Repr

namespace Quantity

/-- `isUnitCompatibleWithType` (weight/volume/count unit groups). -/
def isUnitCompatibleWithType (unit : MeasurementUnit) (type : QuantityType) : Bool :=
  match type with
  | .BY_WEIGHT => unit == .GRAM || unit == .KILOGRAM
  | .BY_VOLUME => unit == .MILLILITER || unit == .LITER
  | .BY_UNIT => unit == .PIECE || unit == .SERVING

/-- `Quantity.create`: constructor validation (amount ≥ 0, compatible unit). -/
def create (p : Quantity) : Except String Quantity :=
  if p.amount < 0 then .error "Quantity amount cannot be negative"
  else if !isUnitCompatibleWithType p.unit p.type then
    .error ("Unit " ++ p.unit.toStr ++ " is not compatible with type " ++ p.type.toStr)
  else .ok p

/-- `Quantity.isEmpty`. -/
def isEmpty (q : Quantity) : Bool := q.amount == 0

/-- `Quantity.add`: same unit required. -/
def add (q other : Quantity) : Except String Quantity :=
  if q.unit ≠ other.unit then .error "Cannot add quantities with different units"
  else .ok { amount := q.amount + other.amount, unit := q.unit, type := q.type }

/-- `Quantity.subtract`: same unit required, result may not be negative. -/
def subtract (q other : Quantity) : Except String Quantity :=
  if q.unit ≠ other.unit then .error "Cannot subtract quantities with different units"
  else if q.amount - other.amount < 0 then .error "Cannot subtract: result would be negative"
  else .ok { amount := q.amount - other.amount, unit := q.unit, type := q.type }

/-- The invariant `validate()` establishes. -/
def Valid (q : Quantity) : Prop :=
  0 ≤ q.amount ∧ isUnitCompatibleWithType q.unit q.type = true

instance : DecidablePred Valid := fun q => by unfold Valid; infer_instance

end Quantity

/-! ## ExpirationDate (src/unnamed/part_017) -/

/-- `MS_PER_DAY = 24 * 60 * 60 * 1000`. -/
def MS_PER_DAY : Int := 86400000

/-- Observable fields of `ExpirationDate`; the `date` is a valid instant. -/
structure ExpirationDate where
  date : Int
  type : ExpirationType
deriving DecidableEq, Repr

namespace ExpirationDate

/-- `isExpired(referenceDate)`: strict comparison `date < referenceDate`. -/
def isExpired (d : ExpirationDate) (referenceDate : Int) : Bool :=
  d.date < referenceDate

/-- `daysUntilExpiration(referenceDate)`:
`Math.ceil((date - ref) / MS_PER_DAY)`, exact ceiling of the rational. -/
def daysUntilExpiration (d : ExpirationDate) (referenceDate : Int) : Int :=
  -((referenceDate - d.date) / MS_PER_DAY)

/-- `isExpiringSoon(thresholdDays, referenceDate)`:
`0 ≤ daysLeft ∧ daysLeft ≤ thresholdDays`. -/
def isExpiringSoon (d : ExpirationDate) (thresholdDays : Int)
    (referenceDate : Int) : Bool :=
  let daysLeft := d.daysUntilExpiration referenceDate
  0 ≤ daysLeft && daysLeft ≤ thresholdDays

/-- `isSafetyCritical`. -/
def isSafetyCritical (d : ExpirationDate) : Bool := d.type == .USE_BY

/-- `ExpirationDate.fromPersistence`: parsing a valid ISO string always
succeeds (invalid instants are outside the model). -/
def fromPersistence (date : Int) (type : ExpirationType) : ExpirationDate :=
  { date := date, type := type }

end ExpirationDate

/-! ## Food entity (src/src/domain/entities/Food.ts) -/

/-- Observable fields of a `Food` aggregate. -/
structure Food where
  id : String
  name : String
  description : Option String
  macronutrients : Macronutrients
  servingSize : Rat
  state : FoodState
  category : FoodCategory
  defaultQuantityType : QuantityType
  defaultUnit : MeasurementUnit
  brand : Option String
  barcode : Option String
  createdAt : Int
  updatedAt : Int
deriving DecidableEq, Repr

/-- `FoodPersistenceData`: the same fields with value objects as plain
props and dates as (the instants denoted by) ISO strings. -/
structure FoodPersistenceData where
  id : String
  name : String
  description : Option String
  macronutrients : Macronutrients
  servingSize : Rat
  state : FoodState
  category : FoodCategory
  defaultQuantityType : QuantityType
  defaultUnit : MeasurementUnit
  brand : Option String
  barcode : Option String
  createdAt : Int
  updatedAt : Int
deriving DecidableEq, Repr

namespace Food

/-- The checks of `Food`'s private `validate()`, run by every construction;
returns the constructed entity or the first failing check's error. -/
def construct (f : Food) : Except String Food :=
  if strBlank f.id then .error "Food ID is required"
  else if strBlank f.name then .error "Food name is required"
  else if f.name.length > 200 then .error "Food name must be 200 characters or less"
  else if f.servingSize ≤ 0 then .error "Serving size must be greater than 0"
  else .ok f

/-- `Food.fromPersistence`: rebuild the `Macronutrients` value object
(validating it), then construct (running `validate()`). -/
def fromPersistence (data : FoodPersistenceData) : Except String Food := do
  let m ← Macronutrients.create data.macronutrients
  construct {
    id := data.id
    name := data.name
    description := data.description
    macronutrients := m
    servingSize := data.servingSize
    state := data.state
    category := data.category
    defaultQuantityType := data.defaultQuantityType
    defaultUnit := data.defaultUnit
    brand := data.brand
    barcode := data.barcode
    createdAt := data.createdAt
    updatedAt := data.updatedAt }

/-- `Food.toPersistence`: flatten value objects, dates to ISO strings. -/
def toPersistence (f : Food) : FoodPersistenceData :=
  { id := f.id
    name := f.name
    description := f.description
    macronutrients := f.macronutrients
    servingSize := f.servingSize
    state := f.state
    category := f.category
    defaultQuantityType := f.defaultQuantityType
    defaultUnit := f.defaultUnit
    brand := f.brand
    barcode := f.barcode
    createdAt := f.createdAt
    updatedAt := f.updatedAt }

/-- `Food.calculateMacronutrientsForQuantity`. -/
def calculateMacronutrientsForQuantity (f : Food) (quantity : Rat) :
    Except String Macronutrients :=
  if quantity ≤ 0 then .error "Quantity must be greater than 0"
  else f.macronutrients.calculateForQuantity (quantity / f.servingSize)

/-- The entity invariant: `validate()` passes and the owned value
object satisfies its own invariant. -/
def Valid (f : Food) : Prop :=
  strBlank f.id = false ∧ strBlank f.name = false ∧ f.name.length ≤ 200 ∧
    0 < f.servingSize ∧ f.macronutrients.Valid

instance : DecidablePred Valid := fun f => by unfold Valid; infer_instance

end Food

/-! ## PantryItem entity (second half of src/src/domain/value-objects/Macronutrients.ts) -/

/-- Observable fields of a `PantryItem` aggregate (owns a `Food` reference). -/
structure PantryItem where
  id : String
  food : Food
  quantity : Quantity
  expiration : ExpirationDate
  purchasedAt : Option Int
  location : Option String
  notes : Option String
  createdAt : Int
  updatedAt : Int
deriving DecidableEq, Repr

/-- `PantryItemPersistenceData`: the `Food` is stored as its id only. -/
structure PantryItemPersistenceData where
  id : String
  foodId : String
  quantity : Quantity
  expirationDate : Int
  expirationType : ExpirationType
  purchasedAt : Option Int
  location : Option String
  notes : Option String
  createdAt : Int
  updatedAt : Int
deriving DecidableEq, Repr

namespace PantryItem

/-- The checks of `PantryItem`'s private `validate()` (the `food` reference
is always present in the model), run by every construction. -/
def construct (p : PantryItem) : Except String PantryItem :=
  if strBlank p.id then .error "PantryItem ID is required"
  else .ok p

/-- The message of the reference-integrity error thrown by
`PantryItem.fromPersistence` on a food-id mismatch. -/
def foodIdMismatchMsg : String :=
  "Food ID mismatch: provided food does not match persisted foodId"

/-- `PantryItem.fromPersistence(data, food)`: reject a mismatched food id,
rebuild the value objects (validating the quantity), then construct. -/
def fromPersistence (data : PantryItemPersistenceData) (food : Food) :
    Except String PantryItem :=
  if data.foodId ≠ food.id then .error foodIdMismatchMsg
  else do
    let q ← Quantity.create data.quantity
    construct {
      id := data.id
      food := food
      quantity := q
      expiration := ExpirationDate.fromPersistence data.expirationDate data.expirationType
      purchasedAt := data.purchasedAt
      location := data.location
      notes := data.notes
      createdAt := data.createdAt
      updatedAt := data.updatedAt }

/-- `PantryItem.toPersistence`: flatten, storing `foodId := food.id`. -/
def toPersistence (p : PantryItem) : PantryItemPersistenceData :=
  { id := p.id
    foodId := p.food.id
    quantity := p.quantity
    expirationDate := p.expiration.date
    expirationType := p.expiration.type
    purchasedAt := p.purchasedAt
    location := p.location
    notes := p.notes
    createdAt := p.createdAt
    updatedAt := p.updatedAt }

/-- `PantryItem.isExpired()` (reference instant made explicit). -/
def isExpired (p : PantryItem) (now : Int) : Bool :=
  p.expiration.isExpired now

/-- `PantryItem.isExpiringSoon(thresholdDays)` (reference instant explicit). -/
def isExpiringSoon (p : PantryItem) (thresholdDays : Int) (now : Int) : Bool :=
  p.expiration.isExpiringSoon thresholdDays now

/-- `PantryItem.isLow(threshold)`. -/
def isLow (p : PantryItem) (threshold : Rat) : Bool :=
  p.quantity.amount ≤ threshold

/-- `PantryItem.isEmpty()`. -/
def isEmpty (p : PantryItem) : Bool := p.quantity.isEmpty

/-- `PantryItem.consume(amount)`: amount must be positive; a consume
quantity is built via `Quantity.create` with the receiver's unit and type,
subtracted, and a fresh (re-validated) instance is returned with
`updatedAt` set to the current instant `now`. -/
def consume (p : PantryItem) (amount : Rat) (now : Int) :
    Except String PantryItem :=
  if amount ≤ 0 then .error "Consume amount must be greater than 0"
  else do
    let cq ← Quantity.create { amount := amount, unit := p.quantity.unit, type := p.quantity.type }
    let q ← p.quantity.subtract cq
    construct { p with quantity := q, updatedAt := now }

/-- `PantryItem.addQuantity(amount)`. -/
def addQuantity (p : PantryItem) (amount : Rat) (now : Int) :
    Except String PantryItem :=
  if amount ≤ 0 then .error "Add amount must be greater than 0"
  else do
    let aq ← Quantity.create { amount := amount, unit := p.quantity.unit, type := p.quantity.type }
    let q ← p.quantity.add aq
    construct { p with quantity := q, updatedAt := now }

/-- The entity invariant: `validate()` passes and the owned quantity
satisfies its own invariant. -/
def Valid (p : PantryItem) : Prop :=
  strBlank p.id = false ∧ p.quantity.Valid

instance : DecidablePred Valid := fun p => by unfold Valid; infer_instance

end PantryItem

/-! ## Mappers (src/unnamed/part_004) -/

/-- `FoodRow`: flat database row of a Food (enum columns hold the enum's
string value; date columns hold ISO strings, modelled by their instants). -/
structure FoodRow where
  id : String
  name : String
  description : Option String
  macronutrients_calories : Rat
  macronutrients_protein : Rat
  macronutrients_carbohydrates : Rat
  macronutrients_fat : Rat
  serving_size : Rat
  state : FoodState
  category : FoodCategory
  default_quantity_type : QuantityType
  default_unit : MeasurementUnit
  brand : Option String
  barcode : Option String
  created_at : Int
  updated_at : Int
deriving DecidableEq, Repr

namespace FoodMapper

/-- `FoodMapper.toPersistence`: entity → row via `food.toPersistence()`. -/
def toPersistence (food : Food) : FoodRow :=
  let d := food.toPersistence
  { id := d.id
    name := d.name
    description := d.description
    macronutrients_calories := d.macronutrients.calories
    macronutrients_protein := d.macronutrients.protein
    macronutrients_carbohydrates := d.macronutrients.carbohydrates
    macronutrients_fat := d.macronutrients.fat
    serving_size := d.servingSize
    state := d.state
    category := d.category
    default_quantity_type := d.defaultQuantityType
    default_unit := d.defaultUnit
    brand := d.brand
    barcode := d.barcode
    created_at := d.createdAt
    updated_at := d.updatedAt }

/-- `FoodMapper.toDomain`: row → entity via `Food.fromPersistence`. -/
def toDomain (row : FoodRow) : Except String Food :=
  Food.fromPersistence {
    id := row.id
    name := row.name
    description := row.description
    macronutrients := {
      calories := row.macronutrients_calories
      protein := row.macronutrients_protein
      carbohydrates := row.macronutrients_carbohydrates
      fat := row.macronutrients_fat }
    servingSize := row.serving_size
    state := row.state
    category := row.category
    defaultQuantityType := row.default_quantity_type
    defaultUnit := row.default_unit
    brand := row.brand
    barcode := row.barcode
    createdAt := row.created_at
    updatedAt := row.updated_at }

end FoodMapper

/-- `PantryItemRow`: flat database row of a PantryItem. -/
structure PantryItemRow where
  id : String
  food_id : String
  quantity_amount : Rat
  quantity_unit : MeasurementUnit
  quantity_type : QuantityType
  expiration_date : Int
  expiration_type : ExpirationType
  purchased_at : Option Int
  location : Option String
  notes : Option String
  created_at : Int
  updated_at : Int
deriving DecidableEq, Repr

namespace PantryItemMapper

/-- `PantryItemMapper.toPersistence`: entity → row. -/
def toPersistence (p : PantryItem) : PantryItemRow :=
  let d := p.toPersistence
  { id := d.id
    food_id := d.foodId
    quantity_amount := d.quantity.amount
    quantity_unit := d.quantity.unit
    quantity_type := d.quantity.type
    expiration_date := d.expirationDate
    expiration_type := d.expirationType
    purchased_at := d.purchasedAt
    location := d.location
    notes := d.notes
    created_at := d.createdAt
    updated_at := d.updatedAt }

/-- `PantryItemMapper.toDomain(row, food)`: row → entity, requiring the
already-resolved `Food`. -/
def toDomain (row : PantryItemRow) (food : Food) : Except String PantryItem :=
  PantryItem.fromPersistence {
    id := row.id
    foodId := row.food_id
    quantity := {
      amount := row.quantity_amount
      unit := row.quantity_unit
      type := row.quantity_type }
    expirationDate := row.expiration_date
    expirationType := row.expiration_type
    purchasedAt := row.purchased_at
    location := row.location
    notes := row.notes
    createdAt := row.created_at
    updatedAt := row.updated_at } food

end PantryItemMapper

/-! ## Specification engine (src/src/domain/specifications/) -/

/-- The pair returned by `toWhereClause()`: a clause string and its bound
parameters. A JS object literal is insertion-ordered, so `params` is an
association list; `spreadMerge` below models `{...left, ...right}`. -/
structure WhereClause where
  clause : String
  params : List (String × Value)
deriving DecidableEq, Repr

/-- JS object spread `{...l, ...r}`: keys of `l` in order with values
overwritten by `r` where keys collide, then the keys only in `r`. -/
def spreadMerge (l r : List (String × Value)) : List (String × Value) :=
  (l.map fun kv => match r.find? (fun kv2 => kv2.1 == kv.1) with
    | some kv2 => (kv.1, kv2.2)
    | none => kv) ++
  r.filter (fun kv2 => !(l.any (fun kv => kv.1 == kv2.1)))

/-- A specification over `T`: either a concrete (leaf) specification given
by its `isSatisfiedBy` predicate and rendered fragment, or one of the
composites built by `and`/`or`/`not` of `CompositeSpecification`. -/
inductive Spec (T : Type) where
  | leaf (pred : T → Bool) (clause : String) (params : List (String × Value))
  | and (l r : Spec T)
  | or (l r : Spec T)
  | not (s : Spec T)

namespace Spec

/-- `isSatisfiedBy`: leaves test their predicate; `AndSpecification`,
`OrSpecification` and `NotSpecification` combine with `&&`, `||`, `!`. -/
def isSatisfiedBy : Spec T → T → Bool
  | leaf p _ _, x => p x
  | and l r, x => l.isSatisfiedBy x && r.isSatisfiedBy x
  | or l r, x => l.isSatisfiedBy x || r.isSatisfiedBy x
  | not s, x => !(s.isSatisfiedBy x)

/-- `toWhereClause`: composites parenthesize each operand fragment and
spread-merge the parameter objects. -/
def toWhereClause : Spec T → WhereClause
  | leaf _ c ps => { clause := c, params := ps }
  | and l r =>
    { clause := "(" ++ l.toWhereClause.clause ++ ") AND (" ++ r.toWhereClause.clause ++ ")"
      params := spreadMerge l.toWhereClause.params r.toWhereClause.params }
  | or l r =>
    { clause := "(" ++ l.toWhereClause.clause ++ ") OR (" ++ r.toWhereClause.clause ++ ")"
      params := spreadMerge l.toWhereClause.params r.toWhereClause.params }
  | not s =>
    { clause := "NOT (" ++ s.toWhereClause.clause ++ ")"
      params := s.toWhereClause.params }

end Spec

/-- `PantryItemByIdSpecification` (PantryItemSpecifications.ts). -/
def PantryItemByIdSpecification (pantryItemId : String) : Spec PantryItem :=
  .leaf (fun e => e.id == pantryItemId) "id = :id" [("id", .str pantryItemId)]

/-- `PantryItemByFoodIdSpecification`. -/
def PantryItemByFoodIdSpecification (foodId : String) : Spec PantryItem :=
  .leaf (fun e => e.food.id == foodId) "food_id = :foodId" [("foodId", .str foodId)]

/-- `PantryItemByLocationSpecification`. -/
def PantryItemByLocationSpecification (location : String) : Spec PantryItem :=
  .leaf (fun e => e.location == some location) "location = :location"
    [("location", .str location)]

/-- `PantryItemLowQuantitySpecification`. -/
def PantryItemLowQuantitySpecification (threshold : Rat) : Spec PantryItem :=
  .leaf (fun e => e.isLow threshold) "quantity_amount <= :threshold"
    [("threshold", .num threshold)]

namespace PantryItemExpiringSpecification

/-- `new Date(now); d.setDate(d.getDate() + thresholdDays)` modelled as
adding whole days in milliseconds (a timezone without DST transitions). -/
def addDays (now : Int) (days : Int) : Int := now + days * MS_PER_DAY

/-- `PantryItemExpiringSpecification.isSatisfiedBy`, delegating to
`entity.isExpiringSoon(thresholdDays)` at evaluation instant `now`. -/
def isSatisfiedBy (thresholdDays : Int) (now : Int) (e : PantryItem) : Bool :=
  e.isExpiringSoon thresholdDays now

/-- `PantryItemExpiringSpecification.toWhereClause`, rendered at instant
`now`: the fragment compares the `expiration_date` column against the
ISO strings of `now` and of `now + thresholdDays` days. -/
def toWhereClause (thresholdDays : Int) (now : Int) : WhereClause :=
  { clause := "expiration_date >= :referenceDate AND expiration_date <= :thresholdDate"
    params := [("referenceDate", .instant now),
               ("thresholdDate", .instant (addDays now thresholdDays))] }

/-- Look up a named instant parameter of a rendered fragment. -/
def lookupInstant (wc : WhereClause) (k : String) : Option Int :=
  match wc.params.find? (fun kv => kv.1 == k) with
  | some (_, .instant t) => some t
  | _ => none

/-- SQL evaluation of the rendered expiring fragment on a row whose
`expiration_date` column holds (the ISO string of) `expDate`: SQLite
compares the ISO strings lexicographically, which coincides with
comparison of the instants they denote. -/
def fragmentSelects (wc : WhereClause) (expDate : Int) : Bool :=
  match lookupInstant wc "referenceDate", lookupInstant wc "thresholdDate" with
  | some ref, some thr => ref ≤ expDate && expDate ≤ thr
  | _, _ => false

end PantryItemExpiringSpecification

/-! ## SQLite SELECT model

A repository read issues `SELECT ... FROM t WHERE clause [ORDER BY ...]`.
The engine returns the rows matching the WHERE predicate; with no
`ORDER BY` they come back in table (rowid/insertion) order, with an
`ORDER BY` they come back stably sorted by the ordering term. -/

/-- Stable sort by `le` (models `ORDER BY`). -/
def sortRows (le : ρ → ρ → Bool) (l : List ρ) : List ρ :=
  List.insertionSort (fun a b => le a b = true) l

/-- The shape of a repository SELECT: the rendered WHERE predicate and
the `ORDER BY` term (when the SQL has one). -/
structure SelectQuery (ρ : Type) where
  pred : ρ → Bool
  orderBy : Option (ρ → ρ → Bool)

/-- Run a SELECT against a table. -/
def runSelect (table : List ρ) (q : SelectQuery ρ) : List ρ :=
  match q.orderBy with
  | none => table.filter q.pred
  | some le => sortRows le (table.filter q.pred)

/-- `ORDER BY name ASC` on food rows (SQLite BINARY collation modelled
as lexicographic comparison of the characters). -/
def foodNameAsc (a b : FoodRow) : Bool := a.name.data ≤ b.name.data

/-- `ORDER BY created_at DESC` on pantry rows. -/
def pantryCreatedDesc (a b : PantryItemRow) : Bool := b.created_at ≤ a.created_at

namespace FoodRepository

/-- `FoodRepository.find(spec)`: `SELECT ... WHERE clause` — the SQL has
no `ORDER BY`. `rowPred` is the WHERE predicate the rendered clause
denotes on rows. -/
def findQuery (rowPred : FoodRow → Bool) : SelectQuery FoodRow :=
  { pred := rowPred, orderBy := none }

/-- `FoodRepository.findAll()`: `SELECT ... ORDER BY name ASC`. -/
def findAllQuery : SelectQuery FoodRow :=
  { pred := fun _ => true, orderBy := some foodNameAsc }

/-- `FoodRepository.findWithPagination`: filtered, `ORDER BY name ASC`,
then `LIMIT take OFFSET skip`. -/
def findPageQuery (rowPred : FoodRow → Bool) : SelectQuery FoodRow :=
  { pred := rowPred, orderBy := some foodNameAsc }

/-- `find` end to end: run the SELECT and map every row to the domain
(a row that fails to map fails the read). -/
def find (table : List FoodRow) (rowPred : FoodRow → Bool) :
    Except String (List Food) :=
  (runSelect table (findQuery rowPred)).mapM FoodMapper.toDomain

/-- `findAll` end to end. -/
def findAll (table : List FoodRow) : Except String (List Food) :=
  (runSelect table findAllQuery).mapM FoodMapper.toDomain

/-- `findWithPagination` end to end: `items` windowed by skip/take, and
`total` the unpaged filtered count. -/
def findWithPagination (table : List FoodRow) (rowPred : FoodRow → Bool)
    (skip take : Nat) : Except String (List Food × Nat) := do
  let items ← (((runSelect table (findPageQuery rowPred)).drop skip).take take).mapM
    FoodMapper.toDomain
  .ok (items, (table.filter rowPred).length)

end FoodRepository

namespace PantryItemRepository

/-- `PantryItemRepository.loadFood`: `SELECT ... FROM foods WHERE id = ?`,
throwing when absent. -/
def loadFood (foods : List FoodRow) (foodId : String) : Except String Food :=
  match foods.find? (fun r => r.id == foodId) with
  | none => .error ("Food with ID " ++ foodId ++ " not found")
  | some row => FoodMapper.toDomain row

/-- `PantryItemRepository.find(spec)`: no `ORDER BY` in the SQL; each row
resolves its `Food` and maps to the domain, and any failure fails the
whole read. -/
def find (foods : List FoodRow) (table : List PantryItemRow)
    (rowPred : PantryItemRow → Bool) : Except String (List PantryItem) :=
  (runSelect table { pred := rowPred, orderBy := none }).mapM fun row => do
    let food ← loadFood foods row.food_id
    PantryItemMapper.toDomain row food

/-- `PantryItemRepository.findAll()`: `ORDER BY created_at DESC`. -/
def findAll (foods : List FoodRow) (table : List PantryItemRow) :
    Except String (List PantryItem) :=
  (runSelect table { pred := fun _ => true, orderBy := some pantryCreatedDesc }).mapM
    fun row => do
      let food ← loadFood foods row.food_id
      PantryItemMapper.toDomain row food

end PantryItemRepository

/-! ## UnitOfWork (src/src/infrastructure/repositories/UnitOfWork.ts)

The storage collaborator (`DatabaseConnection`) is abstract: a state type
`δ` with fallible `begin`/`commit`/`rollback` operations. A `UnitOfWork`
method maps the unit-of-work state to its successor state paired with the
method's thrown-or-returned outcome (the object outlives a throw, so the
state is produced in both cases). -/

/-- The storage collaborator's transaction primitives. -/
structure Db (δ : Type) where
  beginTx : δ → Except String δ
  commitTx : δ → Except String δ
  rollbackTx : δ → Except String δ

/-- The mutable state of a `UnitOfWork` instance: the `inTransaction`
flag and the connection's state. -/
structure UnitOfWork (δ : Type) where
  inTransaction : Bool
  db : δ
deriving Repr

namespace UnitOfWork

/-- `UnitOfWork.beginTransaction`. -/
def beginTransaction (D : Db δ) (u : UnitOfWork δ) :
    UnitOfWork δ × Except String Unit :=
  if u.inTransaction then (u, .error "Transaction already in progress")
  else
    match D.beginTx u.db with
    | .ok d => ({ inTransaction := true, db := d }, .ok ())
    | .error e => (u, .error e)

/-- `UnitOfWork.commit`: the flag is cleared both on success and in the
`catch` before the error is rethrown. -/
def commit (D : Db δ) (u : UnitOfWork δ) : UnitOfWork δ × Except String Unit :=
  if !u.inTransaction then (u, .error "No transaction in progress")
  else
    match D.commitTx u.db with
    | .ok d => ({ inTransaction := false, db := d }, .ok ())
    | .error e => ({ inTransaction := false, db := u.db }, .error e)

/-- `UnitOfWork.rollback`: same shape as `commit`. -/
def rollback (D : Db δ) (u : UnitOfWork δ) : UnitOfWork δ × Except String Unit :=
  if !u.inTransaction then (u, .error "No transaction in progress")
  else
    match D.rollbackTx u.db with
    | .ok d => ({ inTransaction := false, db := d }, .ok ())
    | .error e => ({ inTransaction := false, db := u.db }, .error e)

/-- `UnitOfWork.execute(callback)`: begin (outside the `try`, so its
error propagates directly), run the callback (which receives the unit of
work itself, so it acts on the full state), and commit on success. Every
error thrown inside the `try` — the callback's or a throwing `commit` —
lands in the `catch`, which calls `rollback()` and then rethrows the
caught error; a throwing `rollback`'s own error replaces the caught one,
as a throwing `catch` block does. In particular, after a failed `commit`
(flag already cleared) that `rollback` throws "No transaction in
progress", and that is what `execute` surfaces. -/
def execute (D : Db δ) (cb : UnitOfWork δ → UnitOfWork δ × Except String α)
    (u : UnitOfWork δ) : UnitOfWork δ × Except String α :=
  match beginTransaction D u with
  | (u1, .error e) => (u1, .error e)
  | (u1, .ok ()) =>
    match cb u1 with
    | (u2, .ok a) =>
      match commit D u2 with
      | (u3, .ok ()) => (u3, .ok a)
      | (u3, .error e) =>
        match rollback D u3 with
        | (u4, .ok ()) => (u4, .error e)
        | (u4, .error e2) => (u4, .error e2)
    | (u2, .error e) =>
      match rollback D u2 with
      | (u3, .ok ()) => (u3, .error e)
      | (u3, .error e2) => (u3, .error e2)

end UnitOfWork

/-! ## Concrete fixtures -/

/-- A valid sample `Food` (servingSize 100, calories 200). -/
def sampleFood : Food :=
  { id := "food-1"
    name := "Oats"
    description := some "rolled oats"
    macronutrients := { calories := 200, protein := 10, carbohydrates := 30, fat := 5 }
    servingSize := 100
    state := .SOLID
    category := .GRAIN
    defaultQuantityType := .BY_WEIGHT
    defaultUnit := .GRAM
    brand := some "Acme"
    barcode := none
    createdAt := 1700000000000
    updatedAt := 1700000000000 }

/-- A valid sample `PantryItem` holding 100 grams of `sampleFood`. -/
def samplePantryItem : PantryItem :=
  { id := "item-1"
    food := sampleFood
    quantity := { amount := 100, unit := .GRAM, type := .BY_WEIGHT }
    expiration := { date := 1700300000000, type := .BEST_BEFORE }
    purchasedAt := some 1699990000000
    location := some "Pantry"
    notes := none
    createdAt := 1700000000000
    updatedAt := 1700000000000 }

/-- `samplePantryItem` after `consume(30)` at instant 1700100000000. -/
def samplePantryConsumed : PantryItem :=
  { samplePantryItem with
    quantity := { amount := 70, unit := .GRAM, type := .BY_WEIGHT }
    updatedAt := 1700100000000 }

/-- A pantry item expired by half a day at reference instant 86400000. -/
def halfDayExpiredItem : PantryItem :=
  { samplePantryItem with expiration := { date := 43200000, type := .BEST_BEFORE } }

/-- A food row named "Banana", stored first in the demo table. -/
def rowBanana : FoodRow :=
  { id := "f-banana"
    name := "Banana"
    description := none
    macronutrients_calories := 89
    macronutrients_protein := 1
    macronutrients_carbohydrates := 23
    macronutrients_fat := 0
    serving_size := 100
    state := .SOLID
    category := .FRUIT
    default_quantity_type := .BY_UNIT
    default_unit := .PIECE
    brand := none
    barcode := none
    created_at := 1700000001000
    updated_at := 1700000001000 }

/-- A food row named "Apple", stored second in the demo table. -/
def rowApple : FoodRow :=
  { rowBanana with id := "f-apple", name := "Apple", macronutrients_calories := 52 }

/-- A demo foods table whose insertion order is not name order. -/
def demoFoodTable : List FoodRow := [rowBanana, rowApple]

/-- The `Food` entity the "Banana" row maps to. -/
def foodBanana : Food :=
  { id := "f-banana"
    name := "Banana"
    description := none
    macronutrients := { calories := 89, protein := 1, carbohydrates := 23, fat := 0 }
    servingSize := 100
    state := .SOLID
    category := .FRUIT
    defaultQuantityType := .BY_UNIT
    defaultUnit := .PIECE
    brand := none
    barcode := none
    createdAt := 1700000001000
    updatedAt := 1700000001000 }

/-- The `Food` entity the "Apple" row maps to. -/
def foodApple : Food :=
  { foodBanana with
    id := "f-apple"
    name := "Apple"
    macronutrients := { calories := 52, protein := 1, carbohydrates := 23, fat := 0 } }

/-- A pantry row referencing the stored "Banana" food row. -/
def rowItem1 : PantryItemRow :=
  { id := "pi-1"
    food_id := "f-banana"
    quantity_amount := 2
    quantity_unit := .PIECE
    quantity_type := .BY_UNIT
    expiration_date := 1700300000000
    expiration_type := .BEST_BEFORE
    purchased_at := none
    location := none
    notes := none
    created_at := 1700000002000
    updated_at := 1700000002000 }

/-- A pantry row whose `food_id` references no stored food. -/
def rowItemOrphan : PantryItemRow :=
  { rowItem1 with id := "pi-2", food_id := "f-missing" }

/-- The `PantryItem` the `rowItem1` read resolves to. -/
def itemBanana : PantryItem :=
  { id := "pi-1"
    food := foodBanana
    quantity := { amount := 2, unit := .PIECE, type := .BY_UNIT }
    expiration := { date := 1700300000000, type := .BEST_BEFORE }
    purchasedAt := none
    location := none
    notes := none
    createdAt := 1700000002000
    updatedAt := 1700000002000 }

/-- A demo storage collaborator over `Nat` states: every transaction
primitive succeeds and increments the state. -/
def demoDb : Db Nat :=
  { beginTx := fun d => .ok (d + 1)
    commitTx := fun d => .ok (d + 1)
    rollbackTx := fun d => .ok (d + 1) }

/-- A demo callback that leaves the state alone and returns 42. -/
def demoCb : UnitOfWork Nat → UnitOfWork Nat × Except String Nat :=
  fun u => (u, .ok 42)

/-- A demo callback that throws. -/
def demoFailCb : UnitOfWork Nat → UnitOfWork Nat × Except String Nat :=
  fun u => (u, .error "boom")

/-- A storage collaborator whose commit and rollback always throw. -/
def demoBrokenDb : Db Nat :=
  { beginTx := fun d => .ok (d + 1)
    commitTx := fun _ => .error "disk I-O error"
    rollbackTx := fun _ => .error "disk I-O error" }

/-! ## Theorems -/

/-- `Macronutrients.create` accepts a valid value object unchanged. -/
theorem macronutrients_create_of_valid (m : Macronutrients) (h : m.Valid) :
    Macronutrients.create m = .ok m := by
  obtain ⟨h1, h2, h3, h4⟩ := h
  unfold Macronutrients.create
  rw [if_neg (not_lt.mpr h1), if_neg (not_lt.mpr h2),
    if_neg (not_lt.mpr h3), if_neg (not_lt.mpr h4)]

/-- `Quantity.create` accepts a valid value object unchanged. -/
theorem quantity_create_of_valid (q : Quantity) (h : q.Valid) :
    Quantity.create q = .ok q := by
  obtain ⟨h1, h2⟩ := h
  unfold Quantity.create
  rw [if_neg (not_lt.mpr h1), if_neg (by simp [h2])]

/-- `Food`'s `validate()` accepts a valid entity unchanged. -/
theorem food_construct_of_valid (f : Food) (h : f.Valid) :
    Food.construct f = .ok f := by
  obtain ⟨h1, h2, h3, h4, _⟩ := h
  unfold Food.construct
  rw [if_neg (by simp [h1]), if_neg (by simp [h2]),
    if_neg (by simp [Nat.not_lt.mpr h3]), if_neg (not_le.mpr h4)]

/-- `PantryItem`'s `validate()` accepts a valid entity unchanged. -/
theorem pantryItem_construct_of_valid (p : PantryItem) (h : p.Valid) :
    PantryItem.construct p = .ok p := by
  unfold PantryItem.construct
  rw [if_neg (by simp [h.1])]

/-- C4: for all specifications `A`, `B` and every entity `x`,
`A.and(B).isSatisfiedBy(x) = A.isSatisfiedBy(x) && B.isSatisfiedBy(x)`,
`A.or(B).isSatisfiedBy(x) = A.isSatisfiedBy(x) || B.isSatisfiedBy(x)`,
`A.not().isSatisfiedBy(x) = !A.isSatisfiedBy(x)`; every composite fragment
parenthesizes each operand fragment before joining, and both the boolean
equivalence and the full parenthesization hold under triple nesting. -/
theorem composite_specification_laws {T : Type} (A B C : Spec T) (x : T) :
    ((A.and B).isSatisfiedBy x = (A.isSatisfiedBy x && B.isSatisfiedBy x)) ∧
    ((A.or B).isSatisfiedBy x = (A.isSatisfiedBy x || B.isSatisfiedBy x)) ∧
    (A.not.isSatisfiedBy x = !(A.isSatisfiedBy x)) ∧
    ((A.and B).toWhereClause.clause =
      "(" ++ A.toWhereClause.clause ++ ") AND (" ++ B.toWhereClause.clause ++ ")") ∧
    ((A.or B).toWhereClause.clause =
      "(" ++ A.toWhereClause.clause ++ ") OR (" ++ B.toWhereClause.clause ++ ")") ∧
    (A.not.toWhereClause.clause = "NOT (" ++ A.toWhereClause.clause ++ ")") ∧
    (((A.and B).or C.not).isSatisfiedBy x =
      ((A.isSatisfiedBy x && B.isSatisfiedBy x) || !(C.isSatisfiedBy x))) ∧
    (((A.and B).or C.not).toWhereClause.clause =
      "(" ++ ("(" ++ A.toWhereClause.clause ++ ") AND (" ++ B.toWhereClause.clause ++ ")") ++
        ") OR (" ++ ("NOT (" ++ C.toWhereClause.clause ++ ")") ++ ")") :=
  ⟨rfl, rfl, rfl, rfl, rfl, rfl, rfl, rfl⟩

/-- C9: composing two `PantryItemByIdSpecification` instances (which both
emit the parameter name `id`) with `and()` or `or()` leaves a single
binding for `id` holding the right operand's value — the left binding is
silently overwritten — while `isSatisfiedBy` still tests both values. -/
theorem parameter_name_collision (v1 v2 : String) (x : PantryItem) :
    (((PantryItemByIdSpecification v1).and
        (PantryItemByIdSpecification v2)).toWhereClause.params = [("id", .str v2)]) ∧
    (((PantryItemByIdSpecification v1).or
        (PantryItemByIdSpecification v2)).toWhereClause.params = [("id", .str v2)]) ∧
    (((PantryItemByIdSpecification v1).and
        (PantryItemByIdSpecification v2)).isSatisfiedBy x =
      ((x.id == v1) && (x.id == v2))) ∧
    (((PantryItemByIdSpecification v1).or
        (PantryItemByIdSpecification v2)).isSatisfiedBy x =
      ((x.id == v1) || (x.id == v2))) :=
  ⟨rfl, rfl, rfl, rfl⟩

/-- C8: `Macronutrients.calculateForQuantity` scales each component by a
non-negative ratio rounded to one decimal place, a negative ratio is an
error, `Food.calculateMacronutrientsForQuantity(q)` uses the ratio
`q / servingSize` for positive `q`, and a Food with servingSize 100 and
calories 200 yields calories 100 at quantity 50. -/
theorem macronutrient_scaling (m : Macronutrients) (ratio : Rat) (f : Food) (q : Rat) :
    (0 ≤ ratio → m.calculateForQuantity ratio = .ok
      { calories := Macronutrients.scaleRound m.calories ratio
        protein := Macronutrients.scaleRound m.protein ratio
        carbohydrates := Macronutrients.scaleRound m.carbohydrates ratio
        fat := Macronutrients.scaleRound m.fat ratio }) ∧
    (ratio < 0 → m.calculateForQuantity ratio = .error "Ratio cannot be negative") ∧
    (0 < q → f.calculateMacronutrientsForQuantity q =
      f.macronutrients.calculateForQuantity (q / f.servingSize)) ∧
    ((sampleFood.calculateMacronutrientsForQuantity 50).map (fun r => r.calories) = .ok 100) := by
  refine ⟨fun h => ?_, fun h => ?_, fun h => ?_, ?_⟩
  · unfold Macronutrients.calculateForQuantity
    rw [if_neg (not_lt.mpr h)]
  · unfold Macronutrients.calculateForQuantity
    rw [if_pos h]
  · unfold Food.calculateMacronutrientsForQuantity
    rw [if_neg (not_le.mpr h)]
  · norm_num [sampleFood, Food.calculateMacronutrientsForQuantity,
      Macronutrients.calculateForQuantity, Macronutrients.scaleRound,
      Macronutrients.jsRound, Except.map]

/-- C1: `execute(callback)` begins a transaction; when the callback
returns, it commits and returns the callback's result; when the callback
throws, it rolls back, rethrows the original error, and the unit of work
is idle again; and an `execute` entered while a transaction is already in
progress is rejected with the transaction-state error. -/
theorem uow_execute_contract {δ α : Type}
    (D : Db δ) (cb : UnitOfWork δ → UnitOfWork δ × Except String α)
    (u : UnitOfWork δ) :
    (u.inTransaction = true →
      UnitOfWork.execute D cb u = (u, .error "Transaction already in progress")) ∧
    (∀ d1, u.inTransaction = false → D.beginTx u.db = .ok d1 →
      (∀ u2 a d2, cb ⟨true, d1⟩ = (u2, .ok a) → u2.inTransaction = true →
        D.commitTx u2.db = .ok d2 →
        UnitOfWork.execute D cb u = (⟨false, d2⟩, .ok a)) ∧
      (∀ u2 e d2, cb ⟨true, d1⟩ = (u2, .error e) → u2.inTransaction = true →
        D.rollbackTx u2.db = .ok d2 →
        UnitOfWork.execute D cb u = (⟨false, d2⟩, .error e))) := by
  constructor
  · intro h
    unfold UnitOfWork.execute UnitOfWork.beginTransaction
    rw [if_pos h]
  · intro d1 hidle hbegin
    have hb : UnitOfWork.beginTransaction D u = (⟨true, d1⟩, .ok ()) := by
      unfold UnitOfWork.beginTransaction
      rw [if_neg (by simp [hidle]), hbegin]
    constructor
    · intro u2 a d2 hcb hintx hcommit
      have hc : UnitOfWork.commit D u2 = (⟨false, d2⟩, .ok ()) := by
        unfold UnitOfWork.commit
        rw [if_neg (by simp [hintx]), hcommit]
      simp only [UnitOfWork.execute, hb, hcb, hc]
    · intro u2 e d2 hcb hintx hrollback
      have hr : UnitOfWork.rollback D u2 = (⟨false, d2⟩, .ok ()) := by
        unfold UnitOfWork.rollback
        rw [if_neg (by simp [hintx]), hrollback]
      simp only [UnitOfWork.execute, hb, hcb, hr]

/-- Witness for C1: with the demo collaborator, a successful callback
commits (state advanced by begin and commit) and its result is returned;
a throwing callback rolls back and the original error is rethrown; and a
nested `execute` started inside a transaction is rejected. -/
theorem uow_execute_contract_witness :
    UnitOfWork.execute demoDb demoCb ⟨false, 0⟩ = (⟨false, 2⟩, .ok 42) ∧
    UnitOfWork.execute demoDb demoFailCb ⟨false, 0⟩ = (⟨false, 2⟩, .error "boom") ∧
    UnitOfWork.execute demoDb demoCb ⟨true, 0⟩ =
      (⟨true, 0⟩, .error "Transaction already in progress") :=
  ⟨((uow_execute_contract demoDb demoCb ⟨false, 0⟩).2 1 rfl rfl).1
      ⟨true, 1⟩ 42 2 rfl rfl rfl,
   ((uow_execute_contract demoDb demoFailCb ⟨false, 0⟩).2 1 rfl rfl).2
      ⟨true, 1⟩ "boom" 2 rfl rfl rfl,
   (uow_execute_contract demoDb demoCb ⟨true, 0⟩).1 rfl⟩

/-- When the storage-level commit throws inside `execute`, the `catch`
calls `rollback` on an already-idle unit of work (commit cleared the
flag first), so the "No transaction in progress" error from that
rollback is what `execute` surfaces, not the storage commit error. -/
theorem uow_execute_commit_error_path :
    UnitOfWork.execute demoBrokenDb demoCb ⟨false, 0⟩ =
      (⟨false, 1⟩, .error "No transaction in progress") := rfl

/-- C10: when the storage collaborator's commit or rollback throws while
a transaction is in progress, the `inTransaction` flag is still cleared
before the error propagates, and a subsequent `beginTransaction` on the
same instance is not rejected with a transaction-state error. -/
theorem uow_commit_rollback_clear_flag {δ : Type}
    (D : Db δ) (u : UnitOfWork δ) (e : String) :
    (u.inTransaction = true →
      ((UnitOfWork.commit D u).1.inTransaction = false) ∧
      ((UnitOfWork.rollback D u).1.inTransaction = false)) ∧
    (u.inTransaction = true → D.commitTx u.db = .error e →
      UnitOfWork.commit D u = (⟨false, u.db⟩, .error e) ∧
      (∀ d2, D.beginTx u.db = .ok d2 →
        UnitOfWork.beginTransaction D (UnitOfWork.commit D u).1 =
          (⟨true, d2⟩, .ok ()))) ∧
    (u.inTransaction = true → D.rollbackTx u.db = .error e →
      UnitOfWork.rollback D u = (⟨false, u.db⟩, .error e) ∧
      (∀ d2, D.beginTx u.db = .ok d2 →
        UnitOfWork.beginTransaction D (UnitOfWork.rollback D u).1 =
          (⟨true, d2⟩, .ok ()))) := by
  refine ⟨fun h => ?_, fun h hc => ?_, fun h hr => ?_⟩
  · constructor
    · unfold UnitOfWork.commit
      rw [if_neg (by simp [h])]
      cases D.commitTx u.db <;> simp
    · unfold UnitOfWork.rollback
      rw [if_neg (by simp [h])]
      cases D.rollbackTx u.db <;> simp
  · have hcomm : UnitOfWork.commit D u = (⟨false, u.db⟩, .error e) := by
      unfold UnitOfWork.commit
      rw [if_neg (by simp [h]), hc]
    refine ⟨hcomm, fun d2 hb => ?_⟩
    rw [hcomm]
    unfold UnitOfWork.beginTransaction
    simp [hb]
  · have hroll : UnitOfWork.rollback D u = (⟨false, u.db⟩, .error e) := by
      unfold UnitOfWork.rollback
      rw [if_neg (by simp [h]), hr]
    refine ⟨hroll, fun d2 hb => ?_⟩
    rw [hroll]
    unfold UnitOfWork.beginTransaction
    simp [hb]

/-- Witness for C10: with a collaborator whose commit and rollback throw,
both operations clear the flag, propagate the storage error, and a
subsequent `beginTransaction` succeeds. -/
theorem uow_commit_rollback_clear_flag_witness :
    ((UnitOfWork.commit demoBrokenDb ⟨true, 0⟩).1.inTransaction = false) ∧
    UnitOfWork.commit demoBrokenDb ⟨true, 0⟩ = (⟨false, 0⟩, .error "disk I-O error") ∧
    UnitOfWork.beginTransaction demoBrokenDb
      (UnitOfWork.commit demoBrokenDb ⟨true, 0⟩).1 = (⟨true, 1⟩, .ok ()) ∧
    UnitOfWork.rollback demoBrokenDb ⟨true, 0⟩ = (⟨false, 0⟩, .error "disk I-O error") :=
  ⟨((uow_commit_rollback_clear_flag demoBrokenDb ⟨true, 0⟩ "disk I-O error").1 rfl).1,
   ((uow_commit_rollback_clear_flag demoBrokenDb ⟨true, 0⟩ "disk I-O error").2.1 rfl rfl).1,
   ((uow_commit_rollback_clear_flag demoBrokenDb ⟨true, 0⟩ "disk I-O error").2.1 rfl rfl).2 1 rfl,
   ((uow_commit_rollback_clear_flag demoBrokenDb ⟨true, 0⟩ "disk I-O error").2.2 rfl rfl).1⟩

/-- Reduction of `Except` bind at an `ok`. -/
theorem bind_ok_eq {ε α β : Type} (a : α) (f : α → Except ε β) :
    (Except.ok a >>= f) = f a := rfl

/-- Reduction of `Except` bind at an `error`. -/
theorem bind_error_eq {ε α β : Type} (e : ε) (f : α → Except ε β) :
    ((Except.error e : Except ε α) >>= f) = .error e := rfl

/-- `Quantity.create` returns its (copied) argument when it succeeds. -/
theorem Quantity.create_ok (x y : Quantity) (h : Quantity.create x = .ok y) : y = x := by
  unfold Quantity.create at h
  split at h
  · cases h
  · split at h
    · cases h
    · cases h
      rfl

/-- `Quantity.subtract` returns the difference with the receiver's unit
and type when it succeeds. -/
theorem Quantity.subtract_ok (q o y : Quantity) (h : Quantity.subtract q o = .ok y) :
    y = { amount := q.amount - o.amount, unit := q.unit, type := q.type } := by
  unfold Quantity.subtract at h
  split at h
  · cases h
  · split at h
    · cases h
    · cases h
      rfl

/-- C2: for every valid `Food` entity the mapper round-trip
`toDomain (toPersistence E)` reproduces every observable field exactly,
and for every valid `PantryItem` the round-trip with its referenced
`Food` supplied reproduces every observable field exactly. -/
theorem mapper_roundtrip (E : Food) (P : PantryItem)
    (hE : E.Valid) (hP : P.Valid) :
    FoodMapper.toDomain (FoodMapper.toPersistence E) = .ok E ∧
    PantryItemMapper.toDomain (PantryItemMapper.toPersistence P) P.food = .ok P := by
  constructor
  · simp only [FoodMapper.toDomain, FoodMapper.toPersistence,
      Food.fromPersistence, Food.toPersistence]
    rw [macronutrients_create_of_valid E.macronutrients hE.2.2.2.2]
    exact food_construct_of_valid E hE
  · simp only [PantryItemMapper.toDomain, PantryItemMapper.toPersistence,
      PantryItem.fromPersistence, PantryItem.toPersistence]
    rw [if_neg (by simp)]
    rw [quantity_create_of_valid P.quantity hP.2]
    exact pantryItem_construct_of_valid P hP

/-- Witness for C2: the round-trip at the concrete `sampleFood` and
`samplePantryItem`. -/
theorem mapper_roundtrip_witness :
    FoodMapper.toDomain (FoodMapper.toPersistence sampleFood) = .ok sampleFood ∧
    PantryItemMapper.toDomain (PantryItemMapper.toPersistence samplePantryItem)
      samplePantryItem.food = .ok samplePantryItem :=
  mapper_roundtrip sampleFood samplePantryItem (by decide) (by decide)

/-- C6: `consume` returns a new instance whose fields other than
`quantity.amount` and `updatedAt` equal the receiver's (the receiver
itself, being a value, is unchanged); concretely, consuming 30 from a
100-gram item yields 70, a further `consume(1000)` on that result fails
with the subtraction-below-zero error, and the item the caller held
still has amount 70. -/
theorem consume_frame_and_scenario (p r : PantryItem) (a : Rat) (now : Int) :
    (PantryItem.consume p a now = .ok r →
      r.id = p.id ∧ r.food = p.food ∧ r.expiration = p.expiration ∧
      r.purchasedAt = p.purchasedAt ∧ r.location = p.location ∧
      r.notes = p.notes ∧ r.createdAt = p.createdAt ∧
      r.quantity.amount = p.quantity.amount - a ∧
      r.quantity.unit = p.quantity.unit ∧ r.quantity.type = p.quantity.type ∧
      r.updatedAt = now) ∧
    (PantryItem.consume samplePantryItem 30 1700100000000 = .ok samplePantryConsumed ∧
      samplePantryConsumed.quantity.amount = 70 ∧
      PantryItem.consume samplePantryConsumed 1000 1700200000000 =
        .error "Cannot subtract: result would be negative" ∧
      samplePantryConsumed.quantity.amount = 70) := by
  constructor
  · intro h
    unfold PantryItem.consume at h
    split at h
    · cases h
    · cases hc : Quantity.create
        { amount := a, unit := p.quantity.unit, type := p.quantity.type } with
      | error e => rw [hc, bind_error_eq] at h; cases h
      | ok cq =>
        rw [hc, bind_ok_eq] at h
        cases hs : p.quantity.subtract cq with
        | error e => rw [hs, bind_error_eq] at h; cases h
        | ok q2 =>
          rw [hs, bind_ok_eq] at h
          unfold PantryItem.construct at h
          split at h
          · cases h
          · cases h
            have hcq := Quantity.create_ok _ _ hc
            have hq2 := Quantity.subtract_ok _ _ _ hs
            subst hcq
            subst hq2
            simp
  · refine ⟨?_, by norm_num [samplePantryConsumed, samplePantryItem], ?_,
      by norm_num [samplePantryConsumed, samplePantryItem]⟩
    · norm_num [PantryItem.consume, Quantity.create, Quantity.subtract,
        PantryItem.construct, Quantity.isUnitCompatibleWithType,
        samplePantryItem, samplePantryConsumed, sampleFood, strBlank,
        bind_ok_eq, bind_error_eq]
      intro h1
      exact absurd h1 (by decide)
    · norm_num [PantryItem.consume, Quantity.create, Quantity.subtract,
        PantryItem.construct, Quantity.isUnitCompatibleWithType,
        samplePantryItem, samplePantryConsumed, sampleFood, strBlank,
        bind_ok_eq, bind_error_eq]

/-- Witness for C6: the frame property instantiated at the concrete
consume of 30 from `samplePantryItem`. -/
theorem consume_frame_witness :
    samplePantryConsumed.id = samplePantryItem.id ∧
    samplePantryConsumed.food = samplePantryItem.food ∧
    samplePantryConsumed.expiration = samplePantryItem.expiration ∧
    samplePantryConsumed.purchasedAt = samplePantryItem.purchasedAt ∧
    samplePantryConsumed.location = samplePantryItem.location ∧
    samplePantryConsumed.notes = samplePantryItem.notes ∧
    samplePantryConsumed.createdAt = samplePantryItem.createdAt ∧
    samplePantryConsumed.quantity.amount = samplePantryItem.quantity.amount - 30 ∧
    samplePantryConsumed.quantity.unit = samplePantryItem.quantity.unit ∧
    samplePantryConsumed.quantity.type = samplePantryItem.quantity.type ∧
    samplePantryConsumed.updatedAt = 1700100000000 :=
  (consume_frame_and_scenario samplePantryItem samplePantryConsumed 30 1700100000000).1
    (consume_frame_and_scenario samplePantryItem samplePantryConsumed 30 1700100000000).2.1

/-- A successful `mapM` over `Except` succeeds element by element. -/
theorem mapM_ok_forall₂ {α β : Type} (f : α → Except String β) :
    ∀ (l : List α) (res : List β), l.mapM f = .ok res →
      List.Forall₂ (fun a b => f a = .ok b) l res := by
  intro l
  induction l with
  | nil =>
    intro res h
    rw [List.mapM_nil] at h
    cases h
    exact .nil
  | cons x xs ih =>
    intro res h
    rw [List.mapM_cons] at h
    cases hx : f x with
    | error e => rw [hx, bind_error_eq] at h; cases h
    | ok y =>
      rw [hx, bind_ok_eq] at h
      cases hxs : xs.mapM f with
      | error e => rw [hxs, bind_error_eq] at h; cases h
      | ok ys =>
        rw [hxs, bind_ok_eq] at h
        cases h
        exact .cons hx (ih ys hxs)

/-- A `mapM` over `Except` fails whole when any element fails. -/
theorem mapM_error_of_mem {α β : Type} (f : α → Except String β) :
    ∀ (l : List α) (a : α), a ∈ l → (∃ e, f a = .error e) →
      ∃ e, l.mapM f = .error e := by
  intro l
  induction l with
  | nil => intro a ha; cases ha
  | cons x xs ih =>
    intro a ha ⟨e, he⟩
    rw [List.mapM_cons]
    cases hx : f x with
    | error e2 => exact ⟨e2, by rw [bind_error_eq]⟩
    | ok y =>
      rcases List.mem_cons.mp ha with rfl | hmem
      · rw [hx] at he
        cases he
      · obtain ⟨e3, he3⟩ := ih a hmem ⟨e, he⟩
        refine ⟨e3, ?_⟩
        rw [bind_ok_eq, he3, bind_error_eq]

/-- A successfully mapped pantry row carries a `Food` whose id equals the
row's stored `food_id` (the mismatch check in `fromPersistence` enforces
it). -/
theorem toDomain_food_id (row : PantryItemRow) (food : Food) (it : PantryItem)
    (h : PantryItemMapper.toDomain row food = .ok it) : it.food.id = row.food_id := by
  unfold PantryItemMapper.toDomain PantryItem.fromPersistence at h
  split at h
  · cases h
  · rename_i hcond
    simp only [ne_eq, not_not] at hcond
    cases hq : Quantity.create
        { amount := row.quantity_amount, unit := row.quantity_unit,
          type := row.quantity_type } with
    | error e => rw [hq, bind_error_eq] at h; cases h
    | ok q =>
      rw [hq, bind_ok_eq] at h
      unfold PantryItem.construct at h
      split at h
      · cases h
      · cases h
        simpa using hcond.symm

/-- C7: every `PantryItem` returned by a repository read carries a `Food`
whose id equals the row's stored `food_id`; the read fails as a whole
when a selected row's referenced food is absent; and
`PantryItem.fromPersistence(data, food)` throws the reference error
exactly when `data.foodId` differs from `food.id`. -/
theorem referential_resolution (foods : List FoodRow) (items : List PantryItemRow)
    (rowPred : PantryItemRow → Bool) :
    (∀ res, PantryItemRepository.find foods items rowPred = .ok res →
      List.Forall₂ (fun row it => it.food.id = row.food_id)
        (items.filter rowPred) res) ∧
    (∀ row, row ∈ items.filter rowPred →
      foods.find? (fun r => r.id == row.food_id) = none →
      ∃ e, PantryItemRepository.find foods items rowPred = .error e) ∧
    (∀ (d : PantryItemPersistenceData) (f : Food),
      PantryItem.fromPersistence d f = .error PantryItem.foodIdMismatchMsg ↔
        d.foodId ≠ f.id) := by
  refine ⟨fun res h => ?_, fun row hmem hnone => ?_, fun d f => ?_⟩
  · have h2 := mapM_ok_forall₂ _ _ _ h
    refine h2.imp fun row it hrow => ?_
    cases hl : PantryItemRepository.loadFood foods row.food_id with
    | error e => rw [hl, bind_error_eq] at hrow; cases hrow
    | ok food =>
      rw [hl, bind_ok_eq] at hrow
      exact toDomain_food_id row food it hrow
  · refine mapM_error_of_mem _ _ row hmem ?_
    refine ⟨"Food with ID " ++ row.food_id ++ " not found", ?_⟩
    have hl : PantryItemRepository.loadFood foods row.food_id =
        .error ("Food with ID " ++ row.food_id ++ " not found") := by
      unfold PantryItemRepository.loadFood
      rw [hnone]
    rw [hl, bind_error_eq]
  · constructor
    · intro h
      unfold PantryItem.fromPersistence at h
      split at h
      · assumption
      · exfalso
        cases hq : Quantity.create d.quantity with
        | error e =>
          rw [hq, bind_error_eq] at h
          injection h with h2
          revert h2
          unfold Quantity.create at hq
          split at hq
          · cases hq
            exact fun h2 => absurd h2 (by decide)
          · split at hq
            · cases hq
              generalize d.quantity.unit = u
              generalize d.quantity.type = t
              cases u <;> cases t <;> exact fun h2 => absurd h2 (by decide)
            · cases hq
        | ok q =>
          rw [hq, bind_ok_eq] at h
          unfold PantryItem.construct at h
          split at h
          · injection h with h2
            exact absurd h2 (by decide)
          · cases h
    · intro hne
      unfold PantryItem.fromPersistence
      rw [if_pos hne]

/-- Witness for C7: reading the demo tables resolves the stored banana
food for the pantry row that references it, and the read of the orphan
row (whose `food_id` matches no stored food) fails as a whole. -/
theorem referential_resolution_witness :
    List.Forall₂ (fun row it => it.food.id = row.food_id)
      ([rowItem1].filter fun _ => true)
      [itemBanana] ∧
    (∃ e, PantryItemRepository.find demoFoodTable [rowItemOrphan]
      (fun _ => true) = .error e) :=
  ⟨(referential_resolution demoFoodTable [rowItem1] (fun _ => true)).1
      [itemBanana] (by rfl),
   (referential_resolution demoFoodTable [rowItemOrphan] (fun _ => true)).2.1
      rowItemOrphan (by simp) (by rfl)⟩

/-- `sortRows` output is pairwise ordered for a total transitive order. -/
theorem sortRows_sorted {ρ : Type} (le : ρ → ρ → Bool)
    (total : ∀ a b, le a b = true ∨ le b a = true)
    (tr : ∀ a b c, le a b = true → le b c = true → le a c = true)
    (l : List ρ) : (sortRows le l).Pairwise (fun a b => le a b = true) := by
  unfold sortRows
  haveI : IsTotal ρ (fun a b => le a b = true) := ⟨total⟩
  haveI : IsTrans ρ (fun a b => le a b = true) := ⟨tr⟩
  exact List.sorted_insertionSort _ _

/-- C5 counterexample: `find(spec)` issues its SELECT without an
`ORDER BY`, so with the demo table (stored "Banana" then "Apple") and an
all-matching specification it returns Banana before Apple — not the
name-ascending order the claim asserts — while `findAll` (which does
order) returns Apple before Banana. -/
theorem find_ordering_counterexample :
    FoodRepository.find demoFoodTable (fun _ => true) = .ok [foodBanana, foodApple] ∧
    FoodRepository.findAll demoFoodTable = .ok [foodApple, foodBanana] ∧
    foodBanana.name = "Banana" ∧ foodApple.name = "Apple" ∧
    ¬ (foodBanana.name.data ≤ foodApple.name.data) ∧
    FoodRepository.find demoFoodTable (fun _ => true) ≠
      FoodRepository.findAll demoFoodTable := by
  refine ⟨by decide, by decide, rfl, rfl, by decide, by decide⟩

/-- C5 amended: `find(spec)` renders no `ORDER BY`, so its result keeps
the storage (table) order of the matching rows; only `findAll` and
`findWithPagination` apply the deterministic per-type order — Food rows
by name ascending and PantryItem rows by creation time descending. -/
theorem repository_ordering (table : List FoodRow) (pred : FoodRow → Bool)
    (ptable : List PantryItemRow) (ppred : PantryItemRow → Bool) :
    (runSelect table (FoodRepository.findQuery pred)).Sublist table ∧
    (runSelect table FoodRepository.findAllQuery).Pairwise
      (fun a b => a.name.data ≤ b.name.data) ∧
    (runSelect table (FoodRepository.findPageQuery pred)).Pairwise
      (fun a b => a.name.data ≤ b.name.data) ∧
    (runSelect ptable { pred := ppred, orderBy := some pantryCreatedDesc }).Pairwise
      (fun a b => b.created_at ≤ a.created_at) := by
  have htotF : ∀ a b : FoodRow, foodNameAsc a b = true ∨ foodNameAsc b a = true :=
    fun a b => (le_total a.name.data b.name.data).imp decide_eq_true decide_eq_true
  have htrF : ∀ a b c : FoodRow, foodNameAsc a b = true → foodNameAsc b c = true →
      foodNameAsc a c = true :=
    fun a b c hab hbc =>
      decide_eq_true (le_trans (of_decide_eq_true hab) (of_decide_eq_true hbc))
  have htotP : ∀ a b : PantryItemRow,
      pantryCreatedDesc a b = true ∨ pantryCreatedDesc b a = true :=
    fun a b => (le_total b.created_at a.created_at).imp decide_eq_true decide_eq_true
  have htrP : ∀ a b c : PantryItemRow, pantryCreatedDesc a b = true →
      pantryCreatedDesc b c = true → pantryCreatedDesc a c = true :=
    fun a b c hab hbc =>
      decide_eq_true (le_trans (of_decide_eq_true hbc) (of_decide_eq_true hab))
  refine ⟨List.filter_sublist _, ?_, ?_, ?_⟩
  · exact (sortRows_sorted foodNameAsc htotF htrF _).imp fun h => of_decide_eq_true h
  · exact (sortRows_sorted foodNameAsc htotF htrF _).imp fun h => of_decide_eq_true h
  · exact (sortRows_sorted pantryCreatedDesc htotP htrP _).imp fun h => of_decide_eq_true h

/-- Evaluating the rendered expiring fragment: the row is selected when
its expiration instant lies between the render instant and the render
instant plus the threshold in days. -/
theorem fragmentSelects_eval (t : Int) (now d : Int) :
    PantryItemExpiringSpecification.fragmentSelects
      (PantryItemExpiringSpecification.toWhereClause t now) d =
    (decide (now ≤ d) && decide (d ≤ now + t * MS_PER_DAY)) := rfl

/-- C3 counterexample: at reference instant 86400000 an item whose
expiration passed half a day earlier (instant 43200000) satisfies
`expiring(3)`'s `isSatisfiedBy` (its ceiled days-left is 0) while the
fragment rendered at the same instant excludes it, so the two evaluation
modes do not select the identical day-window. -/
theorem expiring_window_counterexample :
    PantryItemExpiringSpecification.isSatisfiedBy 3 86400000 halfDayExpiredItem = true ∧
    PantryItemExpiringSpecification.fragmentSelects
      (PantryItemExpiringSpecification.toWhereClause 3 86400000)
      halfDayExpiredItem.expiration.date = false ∧
    (PantryItemMapper.toPersistence halfDayExpiredItem).expiration_date =
      halfDayExpiredItem.expiration.date := by
  refine ⟨by decide, by decide, rfl⟩

/-- C3 amended: the two evaluation modes of the expiring-soon
specification agree at every item not yet expired at the shared reference
instant and at every item expired a full day or more (only an item
expired strictly less than one day is satisfied by `isSatisfiedBy` yet
excluded by the fragment); with threshold 3, an item expiring in exactly
3 days is selected, in 4 days is not, and one expired 1 day ago is not,
in both modes. -/
theorem expiring_modes_agree (threshold : Int) (now : Int) (e : PantryItem) :
    (now ≤ e.expiration.date ∨ e.expiration.date ≤ now - MS_PER_DAY →
      PantryItemExpiringSpecification.isSatisfiedBy threshold now e =
        PantryItemExpiringSpecification.fragmentSelects
          (PantryItemExpiringSpecification.toWhereClause threshold now)
          e.expiration.date) ∧
    (e.expiration.date = now + 3 * MS_PER_DAY →
      PantryItemExpiringSpecification.isSatisfiedBy 3 now e = true ∧
      PantryItemExpiringSpecification.fragmentSelects
        (PantryItemExpiringSpecification.toWhereClause 3 now)
        e.expiration.date = true) ∧
    (e.expiration.date = now + 4 * MS_PER_DAY →
      PantryItemExpiringSpecification.isSatisfiedBy 3 now e = false ∧
      PantryItemExpiringSpecification.fragmentSelects
        (PantryItemExpiringSpecification.toWhereClause 3 now)
        e.expiration.date = false) ∧
    (e.expiration.date = now - MS_PER_DAY →
      PantryItemExpiringSpecification.isSatisfiedBy 3 now e = false ∧
      PantryItemExpiringSpecification.fragmentSelects
        (PantryItemExpiringSpecification.toWhereClause 3 now)
        e.expiration.date = false) := by
  simp only [fragmentSelects_eval, PantryItemExpiringSpecification.isSatisfiedBy,
    PantryItem.isExpiringSoon, ExpirationDate.isExpiringSoon,
    ExpirationDate.daysUntilExpiration, MS_PER_DAY]
  refine ⟨fun h => ?_, fun h => ?_, fun h => ?_, fun h => ?_⟩
  · rw [Bool.eq_iff_iff]
    simp only [Bool.and_eq_true, decide_eq_true_eq]
    rcases h with h | h <;> omega
  · simp only [h]
    refine ⟨?_, ?_⟩ <;>
    · simp only [Bool.and_eq_true, decide_eq_true_eq]
      omega
  · simp only [h]
    refine ⟨?_, ?_⟩ <;>
    · simp only [Bool.and_eq_false_iff, decide_eq_false_iff_not]
      omega
  · simp only [h]
    refine ⟨?_, ?_⟩ <;>
    · simp only [Bool.and_eq_false_iff, decide_eq_false_iff_not]
      omega

/-- Witness for C3's amended theorem: agreement at an unexpired item and
the three concrete threshold-3 scenarios, at reference instant
1700000000000 on `samplePantryItem` variants. -/
theorem expiring_modes_agree_witness :
    (PantryItemExpiringSpecification.isSatisfiedBy 3 1700000000000 samplePantryItem =
      PantryItemExpiringSpecification.fragmentSelects
        (PantryItemExpiringSpecification.toWhereClause 3 1700000000000)
        samplePantryItem.expiration.date) ∧
    (PantryItemExpiringSpecification.isSatisfiedBy 3 1700000000000
        { samplePantryItem with
          expiration := { date := 1700000000000 + 3 * MS_PER_DAY, type := .BEST_BEFORE } } =
      true) ∧
    (PantryItemExpiringSpecification.isSatisfiedBy 3 1700000000000
        { samplePantryItem with
          expiration := { date := 1700000000000 + 4 * MS_PER_DAY, type := .BEST_BEFORE } } =
      false) ∧
    (PantryItemExpiringSpecification.isSatisfiedBy 3 1700000000000
        { samplePantryItem with
          expiration := { date := 1700000000000 - MS_PER_DAY, type := .BEST_BEFORE } } =
      false) :=
  ⟨(expiring_modes_agree 3 1700000000000 samplePantryItem).1 (.inl (by decide)),
   ((expiring_modes_agree 3 1700000000000
      { samplePantryItem with
        expiration := { date := 1700000000000 + 3 * MS_PER_DAY, type := .BEST_BEFORE } }).2.1
      rfl).1,
   ((expiring_modes_agree 3 1700000000000
      { samplePantryItem with
        expiration := { date := 1700000000000 + 4 * MS_PER_DAY, type := .BEST_BEFORE } }).2.2.1
      rfl).1,
   ((expiring_modes_agree 3 1700000000000
      { samplePantryItem with
        expiration := { date := 1700000000000 - MS_PER_DAY, type := .BEST_BEFORE } }).2.2.2
      rfl).1⟩

/-- Witness for C8 at ratio 1/2 (the `sampleFood` serving of 50). -/
theorem macronutrient_scaling_witness :
    sampleFood.macronutrients.calculateForQuantity (1/2) = .ok
      { calories := Macronutrients.scaleRound sampleFood.macronutrients.calories (1/2)
        protein := Macronutrients.scaleRound sampleFood.macronutrients.protein (1/2)
        carbohydrates := Macronutrients.scaleRound sampleFood.macronutrients.carbohydrates (1/2)
        fat := Macronutrients.scaleRound sampleFood.macronutrients.fat (1/2) } :=
  (macronutrient_scaling sampleFood.macronutrients (1/2) sampleFood 50).1 (by norm_num)

end Nutrifex
